import Mathlib

/-
Verification of the kernrj/local-auth credential bootstrap and RADIUS→Authentik
authentication bridge.

Shallow embedding of:
  * src/init/webapp/password_manager.py  (SecurePasswordRepository, PasswordManagerService)
  * src/init/webapp/app.py               (Argon2PasswordHasher, ConfigurationBuilder)
  * src/initial-config/radius/scripts/authentik_auth.py (AuthentikAuthenticator, main)

Python dicts are modelled as association lists with unique keys; the stdin /
stdout streams of the bridge are lists of lines; the identity provider's HTTP
responses are supplied by an oracle structure; file-system effects of
_save_config are modelled as an explicit operation trace.
-/

set_option autoImplicit false

/-! ## Python dict model: association lists keyed by strings -/

/-- `d.get(k)`: first value bound to key `k`, if any. -/
def aget {α : Type} : List (String × α) → String → Option α
  | [], _ => none
  | (k', v) :: t, k => if k' = k then some v else aget t k

/-- `d[k] = v`: replace the binding of `k` in place, or append a new one
(Python dict assignment preserves insertion order). -/
def aset {α : Type} : List (String × α) → String → α → List (String × α)
  | [], k, v => [(k, v)]
  | (k', v') :: t, k, v => if k' = k then (k, v) :: t else (k', v') :: aset t k v

/-- `del d[k]`: remove every binding of `k` (on the unique-key lists that
represent Python dicts this is exactly deletion of the one entry). -/
def adel {α : Type} : List (String × α) → String → List (String × α)
  | [], _ => []
  | (k', v') :: t, k => if k' = k then adel t k else (k', v') :: adel t k

/-! ## Python string helpers -/

/-- `sep.join(parts)`. -/
def pyJoin (sep : String) : List String → String
  | [] => ""
  | [x] => x
  | x :: y :: t => x ++ sep ++ pyJoin sep (y :: t)

/-- `s.upper()` (ASCII). -/
def pyUpper (s : String) : String := String.mk (s.toList.map Char.toUpper)

/-- Drop the longest run of characters satisfying `p` from the end. -/
def dropTrailing (p : Char → Bool) (cs : List Char) : List Char :=
  (cs.reverse.dropWhile p).reverse

/-- `s.strip(chars)`: drop characters satisfying `p` from both ends. -/
def stripChars (p : Char → Bool) (cs : List Char) : List Char :=
  dropTrailing p (cs.dropWhile p)

def isPySpace (c : Char) : Bool :=
  c == ' ' || c == '\t' || c == '\n' || c == '\r'

/-- `line.strip()` on whitespace. -/
def pyStrip (cs : List Char) : List Char := stripChars isPySpace cs

/-- `value.strip(Char.quote)`: strip all leading/trailing double-quote characters. -/
def stripQuotes (s : String) : String :=
  String.mk (stripChars (fun c => c == '"') s.toList)

/-- Does `needle` occur as a leading run of `hay`? -/
def leadsWith : List Char → List Char → Bool
  | [], _ => true
  | _ :: _, [] => false
  | a :: as, b :: bs => a == b && leadsWith as bs

/-- Does `needle` occur as a contiguous substring of `hay`? -/
def containsSub (needle : List Char) : List Char → Bool
  | [] => needle.isEmpty
  | c :: t => leadsWith needle (c :: t) || containsSub needle t

/-- Substring scan on strings (model of searching serialized output for a secret). -/
def strContains (needle hay : String) : Bool :=
  containsSub needle.toList hay.toList

/-! ## Model of the external argon2-cffi library

`PasswordHasher.hash` returns an encoded hash string that verifies against
exactly the password it was produced from.  `PasswordHasher.verify` raises
`VerifyMismatchError` when a well-formed hash does not match the password and
`InvalidHashError` when the stored string cannot be parsed as an argon2 hash.
The model keys parsability on the standard `$argon2` prefix of encoded hashes.
The modelled digest is not one-way; no theorem below relies on one-wayness,
only on the match/mismatch/unparsable trichotomy of `verify`. -/

inductive Argon2Outcome where
  | ok
  | mismatch
  | invalidHash
deriving DecidableEq

/-- The uncaught exception surface of the verify wrappers below. -/
inductive Argon2Error where
  | invalidHash
deriving DecidableEq

deriving instance DecidableEq for Except

def argon2LibHash (password : String) : String := "$argon2$" ++ password

/-- A string parses as an argon2 encoded hash iff it carries the standard
`$argon2` prefix (prefix test spelled out on characters so that it evaluates
inside the kernel). -/
def argon2Parsable (h : String) : Bool := leadsWith "$argon2".toList h.toList

def argon2LibVerify (h password : String) : Argon2Outcome :=
  if h = argon2LibHash password then .ok
  else if argon2Parsable h then .mismatch
  else .invalidHash

/-! ## Argon2PasswordHasher (src/init/webapp/app.py)

`verify_password` wraps the library call in `try/except VerifyMismatchError`;
an `InvalidHashError` from a malformed hash is *not* caught and propagates, so
the embedding returns `Except`: `.error` is an uncaught Python exception. -/

structure PasswordHasherInterface where
  hash_password : String → String
  verify_password : String → String → Except Argon2Error Bool

def Argon2PasswordHasher : PasswordHasherInterface where
  hash_password := argon2LibHash
  verify_password := fun password h =>
    match argon2LibVerify h password with
    | .ok => .ok true          -- check_needs_rehash branch also returns True
    | .mismatch => .ok false   -- caught: except VerifyMismatchError
    | .invalidHash => .error .invalidHash  -- uncaught InvalidHashError

/-! ## SecurePasswordRepository (src/init/webapp/password_manager.py)

State: the JSON config file contents (`config`, as parsed: service →
{key → hash}) and the in-memory `_temp_passwords` cache (`temp`). -/

structure RepoState where
  config : List (String × List (String × String))
  temp : List (String × List (String × String))
deriving DecidableEq

def SecurePasswordRepository.store_password
    (st : RepoState) (service username password_hash : String) : RepoState :=
  { st with
    config := aset st.config service
      (aset ((aget st.config service).getD []) (username ++ "_password_hash") password_hash) }

/-- `verify_password`: absent service or key gives `False`; a present hash is
checked with the repository's hasher, catching only `VerifyMismatchError`. -/
def SecurePasswordRepository.verify_password
    (st : RepoState) (service username password : String) : Except Argon2Error Bool :=
  match aget st.config service with
  | none => .ok false
  | some svc =>
    match aget svc (username ++ "_password_hash") with
    | none => .ok false
    | some h =>
      match argon2LibVerify h password with
      | .ok => .ok true
      | .mismatch => .ok false
      | .invalidHash => .error .invalidHash

def SecurePasswordRepository.set_temporary_password
    (st : RepoState) (service username password : String) : RepoState :=
  { st with
    temp := aset st.temp service
      (aset ((aget st.temp service).getD []) username password) }

/-- `get_temporary_password`: returns the cached plaintext and deletes the
entry; returns `None` when the service or username is absent. -/
def SecurePasswordRepository.get_temporary_password
    (st : RepoState) (service username : String) : Option String × RepoState :=
  match aget st.temp service with
  | none => (none, st)
  | some users =>
    match aget users username with
    | none => (none, st)
    | some password =>
      (some password, { st with temp := aset st.temp service (adel users username) })

/-- `generate_initialization_script`: a bash script embedding every cached
plaintext as an `export VAR=<plaintext>` line. -/
def SecurePasswordRepository.generate_initialization_script (st : RepoState) : String :=
  pyJoin "\n"
    (["#!/bin/bash", "# Temporary passwords for initialization"] ++
      (st.temp.map (fun su =>
        su.2.map (fun up =>
          "export " ++ pyUpper su.1 ++ "_" ++ pyUpper up.1 ++ "_TEMP_PASS=\x27" ++ up.2 ++ "\x27"))).flatten)

/-! ## PasswordManagerService (src/init/webapp/password_manager.py) -/

/-- `initialize_service_password` (name shortened): hash the plaintext with the
argon2 hasher, store the hash via the repository, then stage the plaintext in
the temporary cache (the repository has `set_temporary_password`, so the
`hasattr` guard in the source passes). -/
def PasswordManagerService.init_service_password
    (st : RepoState) (service username password : String) : RepoState :=
  SecurePasswordRepository.set_temporary_password
    (SecurePasswordRepository.store_password st service username (argon2LibHash password))
    service username password

/-- `get_initialization_passwords`: returns a copy of the repository's whole
`_temp_passwords` mapping. -/
def PasswordManagerService.get_initialization_passwords
    (st : RepoState) : List (String × List (String × String)) :=
  st.temp

/-! ## ConfigurationBuilder (src/init/webapp/app.py)

The built configuration dict.  `security` and `services` start as empty dicts;
the remaining sections are absent until the corresponding setter runs, which
`Option` captures.  The `initialized` key is named `initDone` here. -/

structure AdminSection where
  email : String
  password_hash : String
deriving DecidableEq

structure DatabaseSection where
  username : String
  password_hash : String
  database : String
  host : String
  port : Nat
deriving DecidableEq

structure LdapSection where
  base_dn : String
  admin_password_hash : String
  readonly_password_hash : String
  host : String
  port : Nat
deriving DecidableEq

structure RadiusSection where
  shared_secret_hash : String
  clients : List String
deriving DecidableEq

structure SecuritySection where
  authentik_secret_key : String
  api_token : String
deriving DecidableEq

structure SystemConfig where
  version : String
  security : Option SecuritySection
  services : List (String × String)
  initDone : Bool
  admin : Option AdminSection
  database : Option DatabaseSection
  ldap : Option LdapSection
  radius : Option RadiusSection
deriving DecidableEq

/-- The builder holds the injected hasher and the configuration dict it
mutates; in the source `build()` returns that same dict object. -/
structure ConfigurationBuilder where
  hasher : PasswordHasherInterface
  config : SystemConfig

def mkConfigurationBuilder (hasher : PasswordHasherInterface) : ConfigurationBuilder :=
  { hasher := hasher
    config := { version := "1.0", security := none, services := [], initDone := false,
                admin := none, database := none, ldap := none, radius := none } }

def ConfigurationBuilder.set_admin_credentials
    (b : ConfigurationBuilder) (email password : String) : ConfigurationBuilder :=
  { b with config := { b.config with
      admin := some { email := email, password_hash := b.hasher.hash_password password } } }

def ConfigurationBuilder.set_database_credentials
    (b : ConfigurationBuilder) (username password database : String) : ConfigurationBuilder :=
  { b with config := { b.config with
      database := some { username := username,
                         password_hash := b.hasher.hash_password password,
                         database := database, host := "postgresql", port := 5432 } } }

def ConfigurationBuilder.set_ldap_configuration
    (b : ConfigurationBuilder) (base_dn admin_password readonly_password : String) :
    ConfigurationBuilder :=
  { b with config := { b.config with
      ldap := some { base_dn := base_dn,
                     admin_password_hash := b.hasher.hash_password admin_password,
                     readonly_password_hash := b.hasher.hash_password readonly_password,
                     host := "openldap", port := 389 } } }

def ConfigurationBuilder.set_radius_configuration
    (b : ConfigurationBuilder) (shared_secret : String) (clients : List String) :
    ConfigurationBuilder :=
  { b with config := { b.config with
      radius := some { shared_secret_hash := b.hasher.hash_password shared_secret,
                       clients := clients } } }

/-- `set_security_keys`: the authentik secret is stored as given (not hashed);
`api_token` stands for the `secrets.token_urlsafe(32)` value, supplied as an
explicit input since the source draws it from the OS entropy pool. -/
def ConfigurationBuilder.set_security_keys
    (b : ConfigurationBuilder) (authentik_secret api_token : String) : ConfigurationBuilder :=
  { b with config := { b.config with
      security := some { authentik_secret_key := authentik_secret, api_token := api_token } } }

/-- `build()`: sets `initialized = True` and returns `self.config` — the very
dict the builder keeps mutating, so the embedding returns the aggregate
together with the updated builder. -/
def ConfigurationBuilder.build (b : ConfigurationBuilder) : SystemConfig × ConfigurationBuilder :=
  let c := { b.config with initDone := true }
  (c, { b with config := c })

/-! ## Serialization (json.dump of the configuration dict) -/

def jsonStr (s : String) : String := "\"" ++ s ++ "\""
def jsonField (k v : String) : String := jsonStr k ++ ": " ++ v
def jsonObj (fields : List String) : String := "\x7b" ++ pyJoin ", " fields ++ "\x7d"
def jsonArr (elems : List String) : String := "[" ++ pyJoin ", " elems ++ "]"
def jsonBool (b : Bool) : String := if b then "true" else "false"

def serializeAdmin (a : AdminSection) : String :=
  jsonObj [jsonField "email" (jsonStr a.email),
           jsonField "password_hash" (jsonStr a.password_hash)]

def serializeDatabase (d : DatabaseSection) : String :=
  jsonObj [jsonField "username" (jsonStr d.username),
           jsonField "password_hash" (jsonStr d.password_hash),
           jsonField "database" (jsonStr d.database),
           jsonField "host" (jsonStr d.host),
           jsonField "port" (toString d.port)]

def serializeLdap (l : LdapSection) : String :=
  jsonObj [jsonField "base_dn" (jsonStr l.base_dn),
           jsonField "admin_password_hash" (jsonStr l.admin_password_hash),
           jsonField "readonly_password_hash" (jsonStr l.readonly_password_hash),
           jsonField "host" (jsonStr l.host),
           jsonField "port" (toString l.port)]

def serializeRadius (r : RadiusSection) : String :=
  jsonObj [jsonField "shared_secret_hash" (jsonStr r.shared_secret_hash),
           jsonField "clients" (jsonArr (r.clients.map jsonStr))]

def serializeSecurity (s : SecuritySection) : String :=
  jsonObj [jsonField "authentik_secret_key" (jsonStr s.authentik_secret_key),
           jsonField "api_token" (jsonStr s.api_token)]

/-- Serialized aggregate, in the dict's insertion order for the canonical
setter sequence of `/api/initialize`. -/
def serializeConfig (c : SystemConfig) : String :=
  jsonObj (List.flatten
    [[jsonField "version" (jsonStr c.version)],
     [jsonField "security" (match c.security with
       | none => jsonObj []
       | some s => serializeSecurity s)],
     [jsonField "services" (jsonObj (c.services.map (fun p => jsonField p.1 (jsonStr p.2))))],
     [jsonField "initialized" (jsonBool c.initDone)],
     (match c.admin with | none => [] | some a => [jsonField "admin" (serializeAdmin a)]),
     (match c.database with | none => [] | some d => [jsonField "database" (serializeDatabase d)]),
     (match c.ldap with | none => [] | some l => [jsonField "ldap" (serializeLdap l)]),
     (match c.radius with | none => [] | some r => [jsonField "radius" (serializeRadius r)])])

/-! ## File-write model for SecurePasswordRepository._save_config

The method's effects, in order: `mkdir(parents=True, exist_ok=True)` on the
parent, `open(path, 'w')` (which truncates the file), `json.dump` of the whole
config, `os.chmod(path, 0o600)`.  `renameInto` exists in the operation
vocabulary so that its absence from the trace is expressible. -/

inductive FsOp where
  | mkdirParents
  | openTruncate
  | writeAll (s : String)
  | chmod (mode : Nat)
  | renameInto
deriving DecidableEq

/-- Effect of one operation on the target file's contents. -/
def runFsOp (content : String) : FsOp → String
  | .mkdirParents => content
  | .openTruncate => ""
  | .writeAll s => content ++ s
  | .chmod _ => content
  | .renameInto => content

def runFsOps (ops : List FsOp) (content : String) : String :=
  ops.foldl runFsOp content

/-- Serialized store file (json.dump of service → {key → hash}). -/
def serializeStore (config : List (String × List (String × String))) : String :=
  jsonObj (config.map (fun sv =>
    jsonField sv.1 (jsonObj (sv.2.map (fun kv => jsonField kv.1 (jsonStr kv.2))))))

/-- Operation trace of `_save_config(config)`. -/
def saveConfigOps (config : List (String × List (String × String))) : List FsOp :=
  [.mkdirParents, .openTruncate, .writeAll (serializeStore config), .chmod 0o600]

/-- Minimal parsability model for the store file: `json.load` fails on an
empty or truncated-at-start file; a dump of the store begins with a brace. -/
def storeParsable (s : String) : Bool := leadsWith "\x7b".toList s.toList

/-! ## AuthentikAuthenticator and main (src/initial-config/radius/scripts/authentik_auth.py)

The provider's HTTP behaviour for one invocation is an oracle: the status
codes of the identification POST, the password POST and the user-query GET,
and the `results` array of the user query.  Group objects are modelled by
their `name` field and `attributes` by a string map; exception-free runs are
modelled (a transport exception is caught and mapped to the same
`(False, None)` outcome as a non-success status, which no claim
distinguishes). -/

inductive NetCall where
  | identPost
  | passwordPost
  | userQuery
deriving DecidableEq

/-- One element of the user query's `results` array, with the fields the
script reads via `user.get(...)`; `is_active` may be absent. -/
structure RawUser where
  username : Option String
  email : Option String
  groups : List String
  is_active : Option Bool
  attributes : List (String × String)
deriving DecidableEq

structure Provider where
  identStatus : Nat
  passwordStatus : Nat
  userQueryStatus : Nat
  userResults : List RawUser
deriving DecidableEq

/-- The dict built by `_get_user_details`; `is_active` defaults to `True`. -/
structure UserDetails where
  username : Option String
  email : Option String
  groups : List String
  is_active : Bool
  attributes : List (String × String)
deriving DecidableEq

def AuthentikAuthenticator.get_user_details
    (p : Provider) (_username : String) : Option UserDetails :=
  if p.userQueryStatus = 200 then
    match p.userResults with
    | [] => none
    | user :: _ =>
      some { username := user.username, email := user.email, groups := user.groups,
             is_active := user.is_active.getD true, attributes := user.attributes }
  else none

/-- `authenticate`: identification POST, then password POST, then on success
the user-details GET.  Also returns the list of network calls issued. -/
def AuthentikAuthenticator.authenticate
    (p : Provider) (username _password : String) : (Bool × Option UserDetails) × List NetCall :=
  if p.identStatus ≠ 200 then
    ((false, none), [NetCall.identPost])
  else if p.passwordStatus = 200 then
    ((true, AuthentikAuthenticator.get_user_details p username),
     [NetCall.identPost, NetCall.passwordPost, NetCall.userQuery])
  else
    ((false, none), [NetCall.identPost, NetCall.passwordPost])

/-- Parse stdin: lines containing `=` are stripped, split at the first `=`,
and assigned into the attributes dict (later lines overwrite earlier ones). -/
def parseAttributes (stdinLines : List String) : List (String × String) :=
  stdinLines.foldl
    (fun attributes line =>
      if line.toList.contains '=' then
        let stripped := pyStrip line.toList
        let key := stripped.takeWhile (fun c => c != '=')
        let value := (stripped.dropWhile (fun c => c != '=')).drop 1
        aset attributes (String.mk key) (String.mk value)
      else attributes)
    []

/-- `main()`: returns (exit code, stdout lines, network calls issued). -/
def mainRun (p : Provider) (stdinLines : List String) : Nat × List String × List NetCall :=
  let attributes := parseAttributes stdinLines
  let username := stripQuotes ((aget attributes "User-Name").getD "")
  let password := stripQuotes ((aget attributes "User-Password").getD "")
  if username = "" ∨ password = "" then
    (1, [], [])
  else
    let r := AuthentikAuthenticator.authenticate p username password
    let success := r.1.1
    let user_data := r.1.2
    if success then
      match user_data with
      | some ud =>
        (0, ("Reply-Message = \"Welcome " ++ username ++ "\"") ::
            (if ud.groups.isEmpty then []
             else ["Class = \"" ++ pyJoin "," ud.groups ++ "\""]),
         r.2)
      | none => (0, [], r.2)
    else
      (1, ["Reply-Message = \"Authentication failed\""], r.2)

/-! ## Helper lemmas -/

theorem aget_aset_self {α : Type} (m : List (String × α)) (k : String) (v : α) :
    aget (aset m k v) k = some v := by
  induction m with
  | nil => simp [aset, aget]
  | cons p t ih =>
    obtain ⟨k', v'⟩ := p
    by_cases hk : k' = k
    · simp [aset, aget, hk]
    · simp [aset, aget, hk, ih]

theorem aget_adel_self {α : Type} (m : List (String × α)) (k : String) :
    aget (adel m k) k = none := by
  induction m with
  | nil => rfl
  | cons p t ih =>
    obtain ⟨k', v'⟩ := p
    by_cases hk : k' = k
    · simp [adel, hk, ih]
    · simp [adel, aget, hk, ih]

theorem stripQuotes_empty : stripQuotes "" = "" := by decide

/-! ## Claim theorems -/

/-- Claim C1 (code bug): when both flow stages return 200 but the user query
reports `is_active = false` — or returns no user record at all — the bridge
still exits 0 (accept); in the inactive case it even emits the `Class` line.
The script stores `is_active` in the user dict but never consults it, and
`main` branches only on the flow-stage success flag, contradicting the spec's
requirement that such runs end `Rejected` with a non-zero exit and no `Class`
line. -/
theorem bridge_accepts_inactive_and_missing_user :
    mainRun ⟨200, 200, 200,
        [⟨some "jdoe", some "jdoe@example.com", ["users", "vpn-users"], some false, []⟩]⟩
        ["User-Name=jdoe", "User-Password=password123"] =
      (0, ["Reply-Message = \"Welcome jdoe\"", "Class = \"users,vpn-users\""],
       [NetCall.identPost, NetCall.passwordPost, NetCall.userQuery]) ∧
    mainRun ⟨200, 200, 200, []⟩ ["User-Name=jdoe", "User-Password=password123"] =
      (0, [], [NetCall.identPost, NetCall.passwordPost, NetCall.userQuery]) := by
  exact ⟨by decide, by decide⟩

/-- Claim C2 (code bug): stored ephemeral plaintexts are *not* reachable only
through the read-once accessor: `generate_initialization_script` serializes
every cached plaintext into a bash script (so its result depends on the stored
plaintext values — the two runs below differ only in the cached plaintext),
and `get_initialization_passwords` returns the whole plaintext mapping. -/
theorem temp_password_cache_serialized_and_enumerated :
    SecurePasswordRepository.generate_initialization_script
        ⟨[], [("database", [("authentik", "pw1")])]⟩ =
      "#!/bin/bash\n# Temporary passwords for initialization\nexport DATABASE_AUTHENTIK_TEMP_PASS=\x27pw1\x27" ∧
    SecurePasswordRepository.generate_initialization_script
        ⟨[], [("database", [("authentik", "pw1")])]⟩ ≠
      SecurePasswordRepository.generate_initialization_script
        ⟨[], [("database", [("authentik", "pw2")])]⟩ ∧
    PasswordManagerService.get_initialization_passwords
        ⟨[], [("database", [("authentik", "pw1")])]⟩ =
      [("database", [("authentik", "pw1")])] := by
  exact ⟨by decide, by decide, by decide⟩

/-- Claim C3 (counterexample): the claim that scanning the serialized built
aggregate for any plaintext input finds zero matches is false — the authentik
secret supplied to `set_security_keys` is stored unhashed, so the scan finds
it in the serialized aggregate of the canonical build sequence. -/
theorem builder_embeds_authentik_secret_plaintext :
    strContains "SENTINELAKSECRET"
      (serializeConfig
        (mkConfigurationBuilder Argon2PasswordHasher
          |>.set_admin_credentials "admin@example.com" "adminpw"
          |>.set_database_credentials "authentik" "dbpw" "authentik"
          |>.set_ldap_configuration "dc=local,dc=auth" "ldapadminpw" "ldapreadonlypw"
          |>.set_radius_configuration "radiussecret" []
          |>.set_security_keys "SENTINELAKSECRET" "apitoken123"
          |>.build).1) = true := by decide

/-- Claim C3 (amended): for every injected hasher and all inputs of the
canonical build sequence, every *password* field of the built aggregate holds
the hasher's output for the corresponding plaintext (admin, database, the two
LDAP passwords, the RADIUS shared secret) — but `set_security_keys` embeds the
authentik secret key itself, in plaintext, in the security section. -/
theorem builder_hashes_passwords_except_security_key
    (hsh : PasswordHasherInterface)
    (adminEmail adminPassword dbUser dbPassword dbName baseDn ldapAdminPassword
     ldapReadonlyPassword radiusSecret authentikSecret apiToken : String)
    (radiusClients : List String) :
    (mkConfigurationBuilder hsh
      |>.set_admin_credentials adminEmail adminPassword
      |>.set_database_credentials dbUser dbPassword dbName
      |>.set_ldap_configuration baseDn ldapAdminPassword ldapReadonlyPassword
      |>.set_radius_configuration radiusSecret radiusClients
      |>.set_security_keys authentikSecret apiToken
      |>.build).1 =
      { version := "1.0",
        security := some { authentik_secret_key := authentikSecret, api_token := apiToken },
        services := [], initDone := true,
        admin := some { email := adminEmail, password_hash := hsh.hash_password adminPassword },
        database := some { username := dbUser, password_hash := hsh.hash_password dbPassword,
                           database := dbName, host := "postgresql", port := 5432 },
        ldap := some { base_dn := baseDn,
                       admin_password_hash := hsh.hash_password ldapAdminPassword,
                       readonly_password_hash := hsh.hash_password ldapReadonlyPassword,
                       host := "openldap", port := 389 },
        radius := some { shared_secret_hash := hsh.hash_password radiusSecret,
                         clients := radiusClients } } := rfl

/-- Claim C4: for a key with a stored plaintext, `get_temporary_password`
returns it on the first call and removes the entry; the second call returns
`none` and leaves the state unchanged (so every further call without an
intervening set also returns `none`); after a new value is set for the same
key, retrieval returns the new value. -/
theorem take_once_semantics (st : RepoState) (service username password newPassword : String)
    (h : (aget st.temp service).bind (fun users => aget users username) = some password) :
    (SecurePasswordRepository.get_temporary_password st service username).1 = some password ∧
    SecurePasswordRepository.get_temporary_password
        (SecurePasswordRepository.get_temporary_password st service username).2 service username =
      (none, (SecurePasswordRepository.get_temporary_password st service username).2) ∧
    (SecurePasswordRepository.get_temporary_password
        (SecurePasswordRepository.set_temporary_password
          (SecurePasswordRepository.get_temporary_password st service username).2
          service username newPassword)
        service username).1 = some newPassword := by
  rcases e : aget st.temp service with _ | users
  · rw [e] at h; simp at h
  · rw [e] at h
    simp only [Option.some_bind] at h
    refine ⟨?_, ?_, ?_⟩ <;>
      simp [SecurePasswordRepository.get_temporary_password,
        SecurePasswordRepository.set_temporary_password, e, h, aget_aset_self, aget_adel_self]

/-- Witness for C4 at a concrete cache state. -/
theorem take_once_semantics_witness :
    ((aget (RepoState.mk [] [("database", [("authentik", "pw1")])]).temp "database").bind
        (fun users => aget users "authentik") = some "pw1") ∧
    ((SecurePasswordRepository.get_temporary_password
        (⟨[], [("database", [("authentik", "pw1")])]⟩ : RepoState) "database" "authentik").1 =
      some "pw1" ∧
     SecurePasswordRepository.get_temporary_password
        (SecurePasswordRepository.get_temporary_password
          (⟨[], [("database", [("authentik", "pw1")])]⟩ : RepoState) "database" "authentik").2
        "database" "authentik" =
      (none,
       (SecurePasswordRepository.get_temporary_password
          (⟨[], [("database", [("authentik", "pw1")])]⟩ : RepoState) "database" "authentik").2) ∧
     (SecurePasswordRepository.get_temporary_password
        (SecurePasswordRepository.set_temporary_password
          (SecurePasswordRepository.get_temporary_password
            (⟨[], [("database", [("authentik", "pw1")])]⟩ : RepoState) "database" "authentik").2
          "database" "authentik" "pw2")
        "database" "authentik").1 = some "pw2") :=
  ⟨by decide,
   take_once_semantics ⟨[], [("database", [("authentik", "pw1")])]⟩
     "database" "authentik" "pw1" "pw2" (by decide)⟩

/-- Claim C5 (code bug): the verify wrappers catch only `VerifyMismatchError`,
so a malformed stored hash makes them raise `InvalidHashError` instead of
returning `false`: shown for `Argon2PasswordHasher.verify_password` and for
`SecurePasswordRepository.verify_password` with a corrupted stored hash.  A
mismatched well-formed hash does return `false`. -/
theorem verify_raises_on_malformed_hash :
    Argon2PasswordHasher.verify_password "secret" "not-a-valid-hash" = .error .invalidHash ∧
    Argon2PasswordHasher.verify_password "secret" (argon2LibHash "other") = .ok false ∧
    SecurePasswordRepository.verify_password
        ⟨[("database", [("authentik_password_hash", "corrupted")])], []⟩
        "database" "authentik" "secret" = .error .invalidHash := by
  exact ⟨by decide, by decide, by decide⟩

/-- Claim C6: after `initialize(service, principal, plaintext)` — hash, store
the hash, then stage the plaintext, in that order — verification of that
plaintext succeeds, the first take-once retrieval returns the plaintext, and a
second retrieval returns empty. -/
theorem init_then_verify_and_take_once (st : RepoState) (service username password : String) :
    SecurePasswordRepository.verify_password
        (PasswordManagerService.init_service_password st service username password)
        service username password = .ok true ∧
    (SecurePasswordRepository.get_temporary_password
        (PasswordManagerService.init_service_password st service username password)
        service username).1 = some password ∧
    (SecurePasswordRepository.get_temporary_password
        (SecurePasswordRepository.get_temporary_password
          (PasswordManagerService.init_service_password st service username password)
          service username).2 service username).1 = none := by
  unfold PasswordManagerService.init_service_password
    SecurePasswordRepository.set_temporary_password SecurePasswordRepository.store_password
    SecurePasswordRepository.verify_password SecurePasswordRepository.get_temporary_password
  simp [aget_aset_self, aget_adel_self, argon2LibVerify]

/-- Claim C7 (counterexample): `_save_config` is not atomic: its operation
trace contains no rename, and interrupting it right after the target file is
opened for writing (truncated) leaves the file empty — the previous store
contents are gone and the file no longer parses. -/
theorem save_config_interruption_loses_store :
    runFsOps ((saveConfigOps [("database", [("authentik_password_hash", "$argon2$new")])]).take 2)
        (serializeStore [("ldap", [("admin_password_hash", "$argon2$prev")])]) = "" ∧
    serializeStore [("ldap", [("admin_password_hash", "$argon2$prev")])] ≠ "" ∧
    storeParsable "" = false ∧
    FsOp.renameInto ∉ saveConfigOps [("database", [("authentik_password_hash", "$argon2$new")])] := by
  exact ⟨by decide, by decide, by decide, by decide⟩

/-- Claim C7 (amended): every `_save_config` run writes the store file in
place — mkdir parents, open-with-truncate on the target, a single whole-file
write, chmod 0600 — with no temp-file rename anywhere in the trace; a
completed run persists the new serialization, but interrupting after the
truncation leaves the file empty regardless of its previous contents. -/
theorem save_config_in_place_no_rename
    (config : List (String × List (String × String))) (old : String) :
    saveConfigOps config =
      [FsOp.mkdirParents, FsOp.openTruncate, FsOp.writeAll (serializeStore config),
       FsOp.chmod 0o600] ∧
    FsOp.renameInto ∉ saveConfigOps config ∧
    runFsOps ((saveConfigOps config).take 2) old = "" ∧
    runFsOps (saveConfigOps config) old = serializeStore config := by
  refine ⟨rfl, ?_, rfl, ?_⟩
  · simp [saveConfigOps]
  · show "" ++ serializeStore config = serializeStore config
    simp

/-- Claim C8: when the parsed attribute stream lacks the `User-Name` key or
the `User-Password` key, the bridge exits with code 1, prints nothing, and
issues no network call. -/
theorem missing_required_key_exits_before_network (p : Provider) (stdinLines : List String)
    (h : aget (parseAttributes stdinLines) "User-Name" = none ∨
         aget (parseAttributes stdinLines) "User-Password" = none) :
    mainRun p stdinLines = (1, [], []) := by
  rcases h with h | h <;> simp [mainRun, h, stripQuotes_empty]

/-- Witness for C8 on the spec's scenario input `User-Name=jdoe` only. -/
theorem missing_required_key_exits_before_network_witness :
    (aget (parseAttributes ["User-Name=jdoe"]) "User-Name" = none ∨
     aget (parseAttributes ["User-Name=jdoe"]) "User-Password" = none) ∧
    mainRun ⟨200, 200, 200, []⟩ ["User-Name=jdoe"] = (1, [], []) :=
  ⟨Or.inr (by decide),
   missing_required_key_exits_before_network ⟨200, 200, 200, []⟩ ["User-Name=jdoe"]
     (Or.inr (by decide))⟩

/-- Claim C9 (counterexample): nothing stops a setter after `build()`: the
call succeeds, and the builder's configuration — the very aggregate `build()`
returned, since the source returns `self.config` itself — now differs from the
value `build()` produced while still carrying `initialized = true`. -/
theorem setter_after_build_alters_aggregate :
    (((mkConfigurationBuilder Argon2PasswordHasher).build).2.set_admin_credentials
        "admin@example.com" "pw").config ≠
      ((mkConfigurationBuilder Argon2PasswordHasher).build).1 ∧
    (((mkConfigurationBuilder Argon2PasswordHasher).build).2.set_admin_credentials
        "admin@example.com" "pw").config.initDone = true := by
  exact ⟨by decide, by decide⟩

/-- Claim C9 (amended): `build()` only sets `initialized = true`; no flag
check makes the builder single-use.  A setter invoked after `build()` goes
through unchecked and yields exactly the built aggregate with the field
overwritten, its `initialized` flag still set — and since in the source the
returned dict aliases the builder's, the built aggregate itself mutates. -/
theorem setters_unchecked_after_build (b : ConfigurationBuilder) (email password : String) :
    ((b.build).2.set_admin_credentials email password).config =
      { (b.build).1 with
        admin := some { email := email, password_hash := b.hasher.hash_password password } } ∧
    ((b.build).2.set_admin_credentials email password).config.initDone = true :=
  ⟨rfl, rfl⟩

/-- Claim C10: when both required keys are present but either value is the
empty string after stripping double quotes, the bridge exits with code 1,
prints nothing, and issues no network call — exactly as when a key is
absent. -/
theorem empty_attribute_value_exits_before_network (p : Provider) (stdinLines : List String)
    (u v : String)
    (hu : aget (parseAttributes stdinLines) "User-Name" = some u)
    (hv : aget (parseAttributes stdinLines) "User-Password" = some v)
    (h : stripQuotes u = "" ∨ stripQuotes v = "") :
    mainRun p stdinLines = (1, [], []) := by
  rcases h with h | h <;> simp [mainRun, hu, hv, h]

/-- Witness for C10 on a quoted-empty `User-Name` value. -/
theorem empty_attribute_value_exits_before_network_witness :
    (aget (parseAttributes ["User-Name=\"\"", "User-Password=secret123"]) "User-Name" =
      some "\"\"") ∧
    (aget (parseAttributes ["User-Name=\"\"", "User-Password=secret123"]) "User-Password" =
      some "secret123") ∧
    (stripQuotes "\"\"" = "" ∨ stripQuotes "secret123" = "") ∧
    mainRun ⟨200, 200, 200, []⟩ ["User-Name=\"\"", "User-Password=secret123"] = (1, [], []) :=
  ⟨by decide, by decide, Or.inl (by decide),
   empty_attribute_value_exits_before_network ⟨200, 200, 200, []⟩
     ["User-Name=\"\"", "User-Password=secret123"] "\"\"" "secret123"
     (by decide) (by decide) (Or.inl (by decide))⟩
